import Mathlib

/-!
Verification of the Hortinha garden-simulation engine against its
natural-language specification.  The definitions below are a shallow
embedding of the TypeScript source (`src/index.tsx`, final variant, and
`src/unnamed/part_001` where a claim cites it): plant/plot data model,
genetics resolution, nearest-empty-spot search, bee state machine, the
bee-pollination routine, self-pollination fallback, harvest logic and the
plot-click dispatcher.  Deferred `setTimeout` callbacks are modelled as
pure commit functions taking both the captured snapshot and the latest
garden state; random instance ids are modelled by threading an explicit
`fresh` id.
-/

namespace Hortinha

/-- Plant species (src/index.tsx line 545). -/
inductive PlantType
  | abobora
  | milho
  | girassol
  | maca
  | feijao
  deriving DecidableEq

/-- Growth stage of a plant (src/index.tsx line 573). -/
inductive PlantStage
  | sprout
  | grown
  deriving DecidableEq

/-- Fertilizer kinds; the TS `FertilizerType` is this or `null`, modelled as
`Option Fertilizer` (src/index.tsx line 547). -/
inductive Fertilizer
  | organic
  | chemical
  deriving DecidableEq

/-- Bee presence states (src/index.tsx line 548). -/
inductive BeeState
  | hidden
  | visible
  | dying
  deriving DecidableEq

/-- Weather kinds (src/index.tsx line 550). -/
inductive WeatherType
  | sunny
  | raining
  | sunnyWindy
  | rainingWindy
  deriving DecidableEq

/-- Harvest size classes (src/index.tsx line 549). -/
inductive PlantSize
  | small
  | normal
  | large
  deriving DecidableEq

/-- Phenotype emoji per species (src/index.tsx PLANT_CONFIG, lines 557-563). -/
def phenotype : PlantType → String
  | PlantType.abobora => "🎃"
  | PlantType.milho => "🌽"
  | PlantType.girassol => "🌻"
  | PlantType.maca => "🍎"
  | PlantType.feijao => "🫘"

/-- A plant instance (src/index.tsx PlantState interface, lines 575-584). -/
structure PlantState where
  instanceId : String
  type : PlantType
  stage : PlantStage
  phenotype : String
  parentIds : List String
  isSmall : Bool
  isHybrid : Bool
  isBoosted : Bool
  deriving DecidableEq

/-- A garden plot (src/index.tsx PlotState interface, lines 586-591). -/
structure PlotState where
  id : Nat
  plant : Option PlantState
  isWatered : Bool
  fertilizer : Option Fertilizer
  deriving DecidableEq

/-- The 4x4 garden, as the ordered array of its 16 plots. -/
abbrev Garden := List PlotState

/-- `createPlant` (src/index.tsx lines 1100-1112); the random instance id is
passed in explicitly as `fresh`. -/
def createPlant (fresh : String) (t : PlantType) (parents : List String)
    (isSmall : Bool) (isHybrid : Bool) : PlantState :=
  { instanceId := fresh
    type := t
    stage := PlantStage.sprout
    phenotype := phenotype t
    parentIds := parents
    isSmall := isSmall
    isHybrid := isHybrid
    isBoosted := false }

/-- `determineOffspringGenetics` (src/index.tsx lines 740-759): heterosis is
checked first (two small parents give `(isInbreeding, isHybrid) = (false, true)`
without consulting lineage); only otherwise is inbreeding computed from
parent-ids or self-identity.  Returns `(isInbreeding, isHybrid)`. -/
def determineOffspringGenetics (plantA plantB : PlantState) : Bool × Bool :=
  if plantA.isSmall && plantB.isSmall then
    (false, true)
  else
    (plantB.parentIds.contains plantA.instanceId ||
       plantA.parentIds.contains plantB.instanceId ||
       plantA.instanceId == plantB.instanceId,
     false)

/-- Effect 1, the bee condition transition (src/index.tsx lines 936-955):
given the derived garden conditions, compute the next bee state. -/
def beeConditionStep (hasPesticides hasSunflowers manualBeeMode : Bool)
    (s : BeeState) : BeeState :=
  if hasPesticides then
    (if s = BeeState.visible then BeeState.dying else s)
  else if hasSunflowers || manualBeeMode then BeeState.visible
  else BeeState.hidden

/-- Title of the environmental-harm notification (src/index.tsx line 965). -/
def tituloAlertaAmbiental : String := "Alerta Ambiental ⚠️"

/-- Effect 2, the 3500ms dying-bees timer (src/index.tsx lines 958-971): when
it fires with the state still `dying` it sets `hidden` and emits the
environmental-harm notification; the timer is only armed while `dying`. -/
def dyingTimerFire (s : BeeState) : BeeState × Option String :=
  match s with
  | BeeState.dying => (BeeState.hidden, some tituloAlertaAmbiental)
  | s => (s, none)

/-- Sample instance id used for concrete witnesses. -/
def idSmallA : String := "s1"

/-- A small pumpkin plant with no recorded parents, used as concrete input. -/
def smallPlantA : PlantState :=
  { instanceId := idSmallA
    type := PlantType.abobora
    stage := PlantStage.grown
    phenotype := phenotype PlantType.abobora
    parentIds := []
    isSmall := true
    isHybrid := false
    isBoosted := false }

/-- Claim C1 counterexample: for a plant with `isSmall = true`, crossing it
with itself yields `isInbreeding = false` and `isHybrid = true`, contradicting
the claim that `resolveOffspringGenetics(A,A)` always yields
`isInbreeding = true, isHybrid = false` regardless of `isSmall`. -/
theorem genetics_self_small_counterexample :
    determineOffspringGenetics smallPlantA smallPlantA = (false, true) ∧
      determineOffspringGenetics smallPlantA smallPlantA ≠ (true, false) := by
  constructor
  · rfl
  · intro h
    simp [determineOffspringGenetics, smallPlantA] at h

/-- Claim C1 (amended): `determineOffspringGenetics` computes hybrid vigor
first: the `isHybrid` component is exactly `both parents small`, regardless of
lineage, and the self-cross `(A,A)` yields `(isInbreeding, isHybrid) =
(true, false)` exactly when `A.isSmall` is false, and `(false, true)` when
`A.isSmall` is true. -/
theorem genetics_hybrid_first_amended :
    (∀ a : PlantState,
        determineOffspringGenetics a a =
          if a.isSmall then (false, true) else (true, false)) ∧
      (∀ a b : PlantState,
        (determineOffspringGenetics a b).2 = (a.isSmall && b.isSmall)) := by
  constructor
  · intro a
    by_cases h : a.isSmall = true
    · simp [determineOffspringGenetics, h]
    · simp at h
      simp [determineOffspringGenetics, h]
  · intro a b
    by_cases h : (a.isSmall && b.isSmall) = true
    · simp [determineOffspringGenetics, h]
    · simp [determineOffspringGenetics, h]

/-- Claim C4 counterexample: with pesticides absent and a grown sunflower
present, the condition-transition effect moves the bee state directly from
`dying` to `visible`, contradicting the claim that no direct Dying→Visible
transition exists. -/
theorem bee_dying_to_visible_counterexample :
    beeConditionStep false true false BeeState.dying = BeeState.visible := by
  rfl

/-- Claim C4 (amended): while pesticide is present, `dying` persists under the
condition effect; the 3500ms timer, firing while still `dying`, unconditionally
moves the state to `hidden` and emits the environmental-harm notification, and
does nothing from other states; but once the pesticide condition clears, the
condition effect exits `dying` directly — to `visible` when a grown sunflower
or the manual bee mode is present, and to `hidden` otherwise — without waiting
for the timer. -/
theorem bee_dying_transitions_amended :
    (∀ sun man : Bool,
        beeConditionStep true sun man BeeState.dying = BeeState.dying) ∧
      dyingTimerFire BeeState.dying = (BeeState.hidden, some tituloAlertaAmbiental) ∧
      dyingTimerFire BeeState.hidden = (BeeState.hidden, none) ∧
      dyingTimerFire BeeState.visible = (BeeState.visible, none) ∧
      beeConditionStep false true false BeeState.dying = BeeState.visible ∧
      beeConditionStep false false true BeeState.dying = BeeState.visible ∧
      beeConditionStep false false false BeeState.dying = BeeState.hidden := by
  refine ⟨?_, rfl, rfl, rfl, rfl, rfl, rfl⟩
  intro sun man
  rfl

/-- One candidate neighbor cell: from a center plot id and a (row, col) delta,
the neighbor's plot id when it is inside the 4x4 grid (the bounds checks of
src/index.tsx lines 1081-1087). -/
def neighborCell (centerId : Nat) (d : Int × Int) : Option Nat :=
  let nr : Int := ((centerId / 4 : Nat) : Int) + d.1
  let nc : Int := ((centerId % 4 : Nat) : Int) + d.2
  if 0 ≤ nr ∧ nr < 4 ∧ 0 ≤ nc ∧ nc < 4 then some ((nr * 4 + nc).toNat) else none

/-- Whether the plot at index `i` of the garden exists and holds no plant. -/
def isEmptyAt (g : Garden) (i : Nat) : Bool :=
  match g.get? i with
  | some p => p.plant.isNone
  | none => false

/-- The nested `for dr / for dc` iteration order of the source, including the
`(0,0)` entry that the loop skips with `continue` (src/index.tsx
lines 1081-1093). -/
def allDeltas : List (Int × Int) :=
  [(-1, -1), (-1, 0), (-1, 1), (0, -1), (0, 0), (0, 1), (1, -1), (1, 0), (1, 1)]

/-- The neighbor scan of `findEmptySpot`: walk the delta list in order, skip
the center, and return the first in-bounds empty neighbor. -/
def scanLoop (centerId : Nat) (g : Garden) : List (Int × Int) → Option Nat
  | [] => none
  | d :: rest =>
    if d = ((0 : Int), (0 : Int)) then scanLoop centerId g rest
    else
      match neighborCell centerId d with
      | some nid => if isEmptyAt g nid then some nid else scanLoop centerId g rest
      | none => scanLoop centerId g rest

/-- `findEmptySpot` (src/index.tsx lines 1075-1098): first empty among the 8
neighbors in loop order, else the first empty plot of the whole garden array,
else `none`. -/
def findEmptySpot (centerId : Nat) (g : Garden) : Option Nat :=
  match scanLoop centerId g allDeltas with
  | some nid => some nid
  | none => (g.find? (fun p => p.plant.isNone)).map (fun p => p.id)

/-- Writes a plant into the plot at index `i` unconditionally (the unguarded
`newGarden[spot].plant = createPlant(...)` commits of the source). -/
def setPlantAt (g : Garden) (i : Nat) (pl : PlantState) : Garden :=
  match g.get? i with
  | some plot => g.set i { plot with plant := some pl }
  | none => g

/-- The 30s self-pollination fallback callback for Pumpkin and Sunflower
(src/index.tsx lines 1259-1301 and 1303-1340): re-checks that the plot still
holds the captured plant instance and that it has not reproduced, skips when
bees are visible, and otherwise places an `isSmall` offspring at
`findEmptySpot`, marking the plant reproduced.  Returns the new garden and the
new reproduced set. -/
def selfPollinationFire (fresh : String) (species : PlantType) (plotId : Nat)
    (instId : String) (g : Garden) (repro : List String) (bee : BeeState) :
    Garden × List String :=
  match g.get? plotId with
  | some plot =>
    match plot.plant with
    | some pl =>
      if pl.instanceId == instId && !(repro.contains instId) then
        if bee = BeeState.visible then (g, repro)
        else
          match findEmptySpot plotId g with
          | some spot =>
            (setPlantAt g spot (createPlant fresh species [instId] true false),
             instId :: repro)
          | none => (g, repro)
      else (g, repro)
    | none => (g, repro)
  | none => (g, repro)

/-- Whether the self-pollination notification fires: in the source it is
emitted after the garden update, gated only on `beeState !== 'visible'`
(src/index.tsx lines 1297-1299 and 1337-1339). -/
def selfPollinationNotifies (bee : BeeState) : Bool :=
  match bee with
  | BeeState.visible => false
  | _ => true

/-- Whether another grown plant of the same species exists in the garden
(the partner-availability condition the specification mentions). -/
def hasSameSpeciesPartner (g : Garden) (species : PlantType) (instId : String) : Bool :=
  g.any (fun p =>
    match p.plant with
    | some pl =>
      decide (pl.type = species) && decide (pl.stage = PlantStage.grown) &&
        !(pl.instanceId == instId)
    | none => false)

/-- An empty plot with the given id. -/
def emptyPlot (i : Nat) : PlotState :=
  { id := i, plant := none, isWatered := false, fertilizer := none }

/-- Instance id of the first concrete pumpkin. -/
def idA0 : String := "a0"

/-- Instance id of the second concrete pumpkin. -/
def idB0 : String := "b0"

/-- Fresh instance id handed to offspring in concrete runs. -/
def freshF : String := "f1"

/-- A grown pumpkin with no recorded parents. -/
def pumpkinA : PlantState :=
  { instanceId := idA0
    type := PlantType.abobora
    stage := PlantStage.grown
    phenotype := phenotype PlantType.abobora
    parentIds := []
    isSmall := false
    isHybrid := false
    isBoosted := false }

/-- A second grown pumpkin, unrelated to the first. -/
def pumpkinB : PlantState :=
  { instanceId := idB0
    type := PlantType.abobora
    stage := PlantStage.grown
    phenotype := phenotype PlantType.abobora
    parentIds := []
    isSmall := false
    isHybrid := false
    isBoosted := false }

/-- Plot 0 holding the first pumpkin. -/
def plotPumpkinA : PlotState :=
  { id := 0, plant := some pumpkinA, isWatered := false, fertilizer := none }

/-- Plot 1 holding the second pumpkin. -/
def plotPumpkinB : PlotState :=
  { id := 1, plant := some pumpkinB, isWatered := false, fertilizer := none }

/-- A garden with a single pumpkin at plot 0 and all other plots empty. -/
def pumpkinAloneGarden : Garden :=
  plotPumpkinA :: (List.range 15).map (fun i => emptyPlot (i + 1))

/-- A garden with grown pumpkins at plots 0 and 1 and all other plots empty. -/
def pumpkinPairGarden : Garden :=
  plotPumpkinA :: plotPumpkinB :: (List.range 14).map (fun i => emptyPlot (i + 2))

/-- Claim C5 counterexample: with two grown pumpkins (so a same-species
partner IS available) and no bees, the 30s fallback still creates an offspring
at plot 4 (which was empty) and still reports the self-pollination
notification — contradicting the claim that no offspring is created and no
notification fires when the no-partner condition does not hold. -/
theorem selfPollination_counterexample :
    hasSameSpeciesPartner pumpkinPairGarden PlantType.abobora idA0 = true ∧
      selfPollinationNotifies BeeState.hidden = true ∧
      ((selfPollinationFire freshF PlantType.abobora 0 idA0 pumpkinPairGarden []
              BeeState.hidden).1.get? 4).map (fun p => p.plant.isSome) = some true ∧
      (pumpkinPairGarden.get? 4).map (fun p => p.plant.isSome) = some false := by
  refine ⟨rfl, rfl, rfl, rfl⟩

/-- Claim C5 (amended): when the fallback fires with bees not visible, the
plot still holding the captured plant instance, and that instance not yet
reproduced, then — no partner-availability check being made — an offspring
with `isSmall = true` is placed at `findEmptySpot` of the plot and the plant is
marked reproduced; the notification condition is only that bees are not
visible. -/
theorem selfPollination_fallback_amended (fresh : String) (species : PlantType)
    (plotId spot : Nat) (instId : String) (g : Garden) (repro : List String)
    (bee : BeeState) (plot : PlotState) (pl : PlantState)
    (h1 : g.get? plotId = some plot) (h2 : plot.plant = some pl)
    (h3 : pl.instanceId = instId) (h4 : repro.contains instId = false)
    (h5 : bee ≠ BeeState.visible) (h6 : findEmptySpot plotId g = some spot) :
    selfPollinationFire fresh species plotId instId g repro bee =
        (setPlantAt g spot (createPlant fresh species [instId] true false),
         instId :: repro) ∧
      selfPollinationNotifies bee = true ∧
      (createPlant fresh species [instId] true false).isSmall = true := by
  refine ⟨?_, ?_, rfl⟩
  · subst h3
    simp only [selfPollinationFire, h1, h2, beq_self_eq_true, h4, Bool.not_false,
      Bool.and_self, if_neg h5, h6, Bool.and_true]
    simp
  · cases bee with
    | visible => exact absurd rfl h5
    | hidden => rfl
    | dying => rfl

/-- Claim C5 witness: the fallback applied to the lone-pumpkin garden with no
bees produces the concrete isSmall offspring at plot 1 with the notification. -/
theorem selfPollination_fallback_witness :
    selfPollinationFire freshF PlantType.abobora 0 idA0 pumpkinAloneGarden []
        BeeState.hidden =
        (setPlantAt pumpkinAloneGarden 1
          (createPlant freshF PlantType.abobora [idA0] true false),
         idA0 :: ([] : List String)) ∧
      selfPollinationNotifies BeeState.hidden = true ∧
      (createPlant freshF PlantType.abobora [idA0] true false).isSmall = true :=
  selfPollination_fallback_amended freshF PlantType.abobora 0 1 idA0
    pumpkinAloneGarden [] BeeState.hidden plotPumpkinA pumpkinA rfl rfl rfl rfl
    (by decide) rfl

/-- Inventory: species to size-class to count (src/index.tsx line 599). -/
def Inventory : Type := PlantType → PlantSize → Nat

/-- Harvest size resolution (src/index.tsx lines 1489-1491): hybrid, any
fertilizer, or boosted give Large; else isSmall gives Small; else Normal. -/
def harvestSize (pl : PlantState) (fert : Option Fertilizer) : PlantSize :=
  if pl.isHybrid || fert.isSome || pl.isBoosted then PlantSize.large
  else if pl.isSmall then PlantSize.small
  else PlantSize.normal

/-- The inventory increment of the harvest branch (src/index.tsx
lines 1493-1499): bump exactly the harvested species/size count. -/
def addHarvest (inv : Inventory) (t : PlantType) (s : PlantSize) : Inventory :=
  fun tq sq => if tq = t ∧ sq = s then inv tq sq + 1 else inv tq sq

/-- Claim C7: the recorded size is Large iff isHybrid or any fertilizer or
isBoosted; Small iff none of those and isSmall; Normal otherwise; and the
harvest bumps exactly the one (species, size) inventory count by one, leaving
every other count unchanged. -/
theorem harvest_size_inventory (pl : PlantState) (fert : Option Fertilizer)
    (inv : Inventory) :
    (harvestSize pl fert = PlantSize.large ↔
        (pl.isHybrid = true ∨ fert.isSome = true ∨ pl.isBoosted = true)) ∧
      (harvestSize pl fert = PlantSize.small ↔
        (pl.isHybrid = false ∧ fert.isSome = false ∧ pl.isBoosted = false ∧
          pl.isSmall = true)) ∧
      (harvestSize pl fert = PlantSize.normal ↔
        (pl.isHybrid = false ∧ fert.isSome = false ∧ pl.isBoosted = false ∧
          pl.isSmall = false)) ∧
      (∀ tq sq, addHarvest inv pl.type (harvestSize pl fert) tq sq =
        inv tq sq + (if tq = pl.type ∧ sq = harvestSize pl fert then 1 else 0)) := by
  refine ⟨?_, ?_, ?_, ?_⟩
  · cases hH : pl.isHybrid <;> cases hB : pl.isBoosted <;> cases fert <;>
      cases hS : pl.isSmall <;> simp [harvestSize, hH, hB, hS]
  · cases hH : pl.isHybrid <;> cases hB : pl.isBoosted <;> cases fert <;>
      cases hS : pl.isSmall <;> simp [harvestSize, hH, hB, hS]
  · cases hH : pl.isHybrid <;> cases hB : pl.isBoosted <;> cases fert <;>
      cases hS : pl.isSmall <;> simp [harvestSize, hH, hB, hS]
  · intro tq sq
    by_cases h : (tq = pl.type ∧ sq = harvestSize pl fert) <;>
      simp [addHarvest, h]

/-- The tools of the final variant relevant to the click dispatcher (the
seed buttons plus `regador`, `adubo_organico`, `agrotoxico`, `colher`;
src/index.tsx line 546).  The manual-pollination tool has its own branch in
the source and is not needed by any claim about this dispatcher. -/
inductive Tool
  | seed (t : PlantType)
  | regador
  | aduboOrganico
  | agrotoxico
  | colher
  deriving DecidableEq

/-- The engine state touched by a plot click: garden, inventory and the
notification log (as a list of titles, newest first). -/
structure SimState where
  garden : Garden
  inventory : Inventory
  notifTitles : List String

/-- Whether the weather string contains `raining` (src/index.tsx
`weather.includes('raining')`): true for `raining` and `raining_windy`. -/
def isRaining : WeatherType → Bool
  | WeatherType.raining => true
  | WeatherType.rainingWindy => true
  | _ => false

/-- The species planted by a seed tool, if any. -/
def isSeedTool : Tool → Option PlantType
  | Tool.seed t => some t
  | _ => none

/-- Apply a plot mutation at the given plot id. -/
def updatePlot (g : Garden) (plotId : Nat) (f : PlotState → PlotState) : Garden :=
  g.map (fun p => if p.id = plotId then f p else p)

/-- Reset a plot on harvest (src/index.tsx line 1511/1528). -/
def clearPlot (p : PlotState) : PlotState :=
  { p with plant := none, isWatered := false, fertilizer := none }

/-- The `OTHER TOOLS LOGIC` updater of `handlePlotClick` (src/index.tsx
lines 1530-1563): plant a seed on an empty plot (watering it and scheduling
growth when it is raining), water an unwatered sprout, or fertilize.  The
boolean result records whether `growPlant` armed a growth timer, which it
skips when the plot is already in the in-flight `growingSproutsRef` set. -/
def otherToolsClick (fresh : String) (weather : WeatherType) (tool : Tool)
    (growing : List Nat) (g : Garden) (plotId : Nat) : Garden × Bool :=
  match g.find? (fun p => p.id == plotId) with
  | none => (g, false)
  | some plot =>
    match isSeedTool tool with
    | some t =>
      if plot.plant = none then
        (updatePlot g plotId (fun p =>
            { p with plant := some (createPlant fresh t [] false false),
                     isWatered := isRaining weather || p.isWatered }),
         isRaining weather && !(growing.contains plotId))
      else (g, false)
    | none =>
      if tool = Tool.regador ∧ plot.plant.map (fun pl => pl.stage) = some PlantStage.sprout ∧
          plot.isWatered = false then
        (updatePlot g plotId (fun p => { p with isWatered := true }),
         !(growing.contains plotId))
      else if tool = Tool.aduboOrganico ∧ plot.plant.isSome = true ∧ plot.fertilizer = none then
        (updatePlot g plotId (fun p => { p with fertilizer := some Fertilizer.organic }), false)
      else if tool = Tool.agrotoxico ∧ plot.plant.isSome = true ∧ plot.fertilizer = none then
        (updatePlot g plotId (fun p => { p with fertilizer := some Fertilizer.chemical }), false)
      else (g, false)

/-- `handlePlotClick` of the final variant (src/index.tsx lines 1418-1565)
restricted to the tools above: the harvest branch fires only for a grown
plant (updating the inventory, and clearing the plot immediately for
non-bean species; the bean garden update is the deferred green-manure commit
modelled separately); every other combination goes through the other-tools
updater.  The boolean result records whether a growth timer was armed. -/
def handlePlotClick (fresh : String) (weather : WeatherType) (tool : Tool)
    (growing : List Nat) (st : SimState) (plotId : Nat) : SimState × Bool :=
  match st.garden.find? (fun p => p.id == plotId) with
  | none => (st, false)
  | some plot =>
    if tool = Tool.colher ∧ plot.plant.map (fun pl => pl.stage) = some PlantStage.grown then
      match plot.plant with
      | some pl =>
        if pl.type = PlantType.feijao then
          ({ garden := st.garden,
             inventory := addHarvest st.inventory pl.type (harvestSize pl plot.fertilizer),
             notifTitles := st.notifTitles }, false)
        else
          ({ garden := updatePlot st.garden plotId clearPlot,
             inventory := addHarvest st.inventory pl.type (harvestSize pl plot.fertilizer),
             notifTitles := st.notifTitles }, false)
      | none => (st, false)
    else
      let r := otherToolsClick fresh weather tool growing st.garden plotId
      ({ garden := r.1, inventory := st.inventory, notifTitles := st.notifTitles }, r.2)

/-- Claim C9: clicking a plot whose plant is still a sprout with the harvest
tool selected is a complete no-op — the garden, the inventory and the
notification log are all unchanged and no growth timer is armed. -/
theorem harvest_sprout_noop (fresh : String) (weather : WeatherType)
    (growing : List Nat) (st : SimState) (plotId : Nat) (plot : PlotState)
    (pl : PlantState)
    (h1 : st.garden.find? (fun p => p.id == plotId) = some plot)
    (h2 : plot.plant = some pl) (h3 : pl.stage = PlantStage.sprout) :
    handlePlotClick fresh weather Tool.colher growing st plotId = (st, false) := by
  simp [handlePlotClick, h1, h2, h3, otherToolsClick, isSeedTool]

/-- The instance id of the concrete sprout used in witnesses. -/
def idSp : String := "sp1"

/-- A pumpkin sprout. -/
def sproutPlant : PlantState :=
  { instanceId := idSp
    type := PlantType.abobora
    stage := PlantStage.sprout
    phenotype := phenotype PlantType.abobora
    parentIds := []
    isSmall := false
    isHybrid := false
    isBoosted := false }

/-- A 16-plot garden that is empty everywhere. -/
def emptyGarden16 : Garden := (List.range 16).map emptyPlot

/-- Plot 0 holding the pumpkin sprout. -/
def plotSprout : PlotState :=
  { id := 0, plant := some sproutPlant, isWatered := false, fertilizer := none }

/-- A garden with the sprout at plot 0 and all other plots empty. -/
def sproutGarden : Garden :=
  plotSprout :: (List.range 15).map (fun i => emptyPlot (i + 1))

/-- A state with the sprout garden, an empty inventory and no notifications. -/
def stSprout : SimState :=
  { garden := sproutGarden, inventory := fun _ _ => 0, notifTitles := [] }

/-- A state with the all-empty garden, an empty inventory, no notifications. -/
def stEmpty : SimState :=
  { garden := emptyGarden16, inventory := fun _ _ => 0, notifTitles := [] }

/-- Claim C9 witness: harvesting the concrete sprout at plot 0 leaves the
whole state unchanged. -/
theorem harvest_sprout_noop_witness :
    handlePlotClick freshF WeatherType.sunny Tool.colher [] stSprout 0 =
      (stSprout, false) :=
  harvest_sprout_noop freshF WeatherType.sunny [] stSprout 0 plotSprout
    sproutPlant rfl rfl rfl

/-- Auxiliary: searching a plot by id after an id-preserving `updatePlot`
finds the updated version of the plot the search would have found before. -/
theorem find?_updatePlot (plotId : Nat) (f : PlotState → PlotState)
    (hf : ∀ p, (f p).id = p.id) :
    ∀ g : Garden,
      (updatePlot g plotId f).find? (fun p => p.id == plotId) =
        (g.find? (fun p => p.id == plotId)).map
          (fun p => if p.id = plotId then f p else p) := by
  intro g
  induction g with
  | nil => rfl
  | cons a t ih =>
    by_cases h : a.id = plotId
    · have hb1 : (a.id == plotId) = true := by simp [h]
      have hb2 : (((if a.id = plotId then f a else a).id == plotId)) = true := by
        simp [h, hf]
      simp only [updatePlot, List.map_cons, List.find?]
      rw [hb1, hb2]
      rfl
    · have hb1 : (a.id == plotId) = false := by simp [h]
      have hb2 : (((if a.id = plotId then f a else a).id == plotId)) = false := by
        simp [h]
      simp only [updatePlot, List.map_cons, List.find?]
      rw [hb1, hb2]
      simpa only [updatePlot] using ih

/-- Claim C10: planting a seed on an empty, unwatered plot arms the growth
timer and waters the new sprout exactly when the current weather includes
rain; the new plot holds the fresh sprout; inventory and notifications are
untouched. -/
theorem plant_seed_rain (fresh : String) (w : WeatherType) (t : PlantType)
    (growing : List Nat) (st : SimState) (plotId : Nat) (plot : PlotState)
    (h1 : st.garden.find? (fun p => p.id == plotId) = some plot)
    (h2 : plot.plant = none) (h3 : plot.isWatered = false)
    (h4 : growing.contains plotId = false) :
    (handlePlotClick fresh w (Tool.seed t) growing st plotId).2 = isRaining w ∧
      (((handlePlotClick fresh w (Tool.seed t) growing st plotId).1.garden.find?
            (fun p => p.id == plotId)).map (fun p => (p.plant, p.isWatered))) =
        some (some (createPlant fresh t [] false false), isRaining w) ∧
      (handlePlotClick fresh w (Tool.seed t) growing st plotId).1.inventory =
        st.inventory ∧
      (handlePlotClick fresh w (Tool.seed t) growing st plotId).1.notifTitles =
        st.notifTitles := by
  have hcol : ¬(Tool.seed t = Tool.colher ∧
      plot.plant.map (fun q => q.stage) = some PlantStage.grown) := by
    rintro ⟨h, -⟩
    exact Tool.noConfusion h
  have hpid : plot.id = plotId := by
    have := List.find?_some h1
    simpa using this
  simp only [handlePlotClick, h1]
  rw [if_neg hcol]
  simp only [otherToolsClick, h1, isSeedTool]
  rw [if_pos h2]
  refine ⟨?_, ?_, by trivial, by trivial⟩
  · show (isRaining w && !(growing.contains plotId)) = isRaining w
    rw [h4]
    simp
  · show ((updatePlot st.garden plotId (fun p =>
          { p with plant := some (createPlant fresh t [] false false),
                   isWatered := isRaining w || p.isWatered })).find?
          (fun p => p.id == plotId)).map (fun p => (p.plant, p.isWatered)) =
        some (some (createPlant fresh t [] false false), isRaining w)
    have hfid : ∀ p : PlotState,
        ({ p with plant := some (createPlant fresh t [] false false),
                  isWatered := isRaining w || p.isWatered } : PlotState).id = p.id :=
      fun p => rfl
    rw [find?_updatePlot plotId _ hfid, h1]
    simp [hpid, h3]

/-- Claim C10 witness: planting corn on the empty plot 0 while it rains
produces a watered sprout there and arms the timer. -/
theorem plant_seed_rain_witness :
    (handlePlotClick freshF WeatherType.raining (Tool.seed PlantType.milho) []
        stEmpty 0).2 = isRaining WeatherType.raining ∧
      (((handlePlotClick freshF WeatherType.raining (Tool.seed PlantType.milho) []
            stEmpty 0).1.garden.find? (fun p => p.id == 0)).map
          (fun p => (p.plant, p.isWatered))) =
        some (some (createPlant freshF PlantType.milho [] false false),
          isRaining WeatherType.raining) ∧
      (handlePlotClick freshF WeatherType.raining (Tool.seed PlantType.milho) []
          stEmpty 0).1.inventory = stEmpty.inventory ∧
      (handlePlotClick freshF WeatherType.raining (Tool.seed PlantType.milho) []
          stEmpty 0).1.notifTitles = stEmpty.notifTitles :=
  plant_seed_rain freshF WeatherType.raining PlantType.milho [] stEmpty 0
    (emptyPlot 0) rfl rfl rfl rfl

/-- Title of the heterosis notification (src/index.tsx line 1193). -/
def tituloHibrido : String := "Vigor Híbrido (Heterose) 🚀"

/-- Title of the inbreeding-depression notification (src/index.tsx line 1195). -/
def tituloEndogamia : String := "Depressão Endogâmica 🧬"

/-- Title of the pumpkin cross-pollination notification (line 1198). -/
def tituloCruzAbobora : String := "Polinização Cruzada (Abóbora) 🐝"

/-- Title of the apple cross-pollination notification (line 1201). -/
def tituloCruzMaca : String := "Polinização Cruzada (Maçã) 🐝🍎"

/-- Title of the sunflower cross-pollination notification (line 1204). -/
def tituloCruzGirassol : String := "Polinização Solar (Girassol) 🌻🐝"

/-- Filter for a grown, not-yet-reproduced plant of the species — the seeker
condition of `tryPollination` (src/index.tsx lines 1122-1126). -/
def grownUnreproOfType (t : PlantType) (repro : List String) (p : PlotState) : Bool :=
  match p.plant with
  | some pl =>
    decide (pl.type = t) && decide (pl.stage = PlantStage.grown) &&
      !(repro.contains pl.instanceId)
  | none => false

/-- Filter for any other grown plant of the species — the partner pool of
`tryPollination` (src/index.tsx lines 1137-1141). -/
def grownOtherOfType (t : PlantType) (sourceId : String) (p : PlotState) : Bool :=
  match p.plant with
  | some pl =>
    decide (pl.type = t) && decide (pl.stage = PlantStage.grown) &&
      !(pl.instanceId == sourceId)
  | none => false

/-- Whether the plot's plant is not in the reproduced set (the stable-sort key
of the partner ordering, src/index.tsx lines 1146-1152). -/
def notReproduced (repro : List String) (p : PlotState) : Bool :=
  match p.plant with
  | some pl => !(repro.contains pl.instanceId)
  | none => false

/-- `Set.add` on the reproduced set of instance ids. -/
def addRepro (id : String) (repro : List String) : List String :=
  if repro.contains id then repro else id :: repro

/-- The cross-pollination notification title per species (src/index.tsx
lines 1196-1206); only the three bee species carry one. -/
def crossTitle : PlantType → Option String
  | PlantType.abobora => some tituloCruzAbobora
  | PlantType.maca => some tituloCruzMaca
  | PlantType.girassol => some tituloCruzGirassol
  | _ => none

/-- The notification chosen at commit time from the resolved genetics
(src/index.tsx lines 1191-1206): hybrid title, else inbreeding title, else the
species cross-pollination title. -/
def pickTitle (t : PlantType) (gen : Bool × Bool) : Option String :=
  if gen.2 then some tituloHibrido
  else if gen.1 then some tituloEndogamia
  else crossTitle t

/-- Everything a `tryPollination` run decides: the matched plots and plants,
the genetics, the spot captured for the deferred commit, the offspring to be
written there, the notification title, and the reproduced set after marking
both participants. -/
structure BeePollinationEvent where
  sourcePlot : PlotState
  partnerPlot : PlotState
  sourcePlant : PlantState
  partnerPlant : PlantState
  genetics : Bool × Bool
  spotId : Option Nat
  offspring : Option PlantState
  notificationTitle : Option String
  reproAfter : List String

/-- The outcome of a successful `tryPollination` match (src/index.tsx
lines 1157-1215): both participants marked reproduced; the deferred commit
targets `findEmptySpot` of the seeker's plot computed on the captured garden;
offspring and notification exist only when a spot was found. -/
def mkBeeEvent (fresh : String) (g : Garden) (t : PlantType) (repro : List String)
    (source partner : PlotState) (sp pp : PlantState) : BeePollinationEvent :=
  let gen := determineOffspringGenetics sp pp
  let spot := findEmptySpot source.id g
  { sourcePlot := source
    partnerPlot := partner
    sourcePlant := sp
    partnerPlant := pp
    genetics := gen
    spotId := spot
    offspring :=
      match spot with
      | some _ => some (createPlant fresh t [sp.instanceId, pp.instanceId] gen.1 gen.2)
      | none => none
    notificationTitle :=
      match spot with
      | some _ => pickTitle t gen
      | none => none
    reproAfter := addRepro pp.instanceId (addRepro sp.instanceId repro) }

/-- `tryPollination` (src/index.tsx lines 1118-1218): requires bees visible;
takes the first grown unreproduced plant of the species as seeker; among all
other grown plants of the species prefers not-yet-reproduced ones (stable
partition, modelling the stable comparator sort); returns the resulting event,
or `none` when there is no seeker or no partner. -/
def tryPollinationModel (fresh : String) (g : Garden) (t : PlantType)
    (bee : BeeState) (repro : List String) : Option BeePollinationEvent :=
  if bee ≠ BeeState.visible then none
  else
    match g.filter (grownUnreproOfType t repro) with
    | [] => none
    | source :: _ =>
      match source.plant with
      | none => none
      | some sp =>
        match (g.filter (grownOtherOfType t sp.instanceId)).filter
              (notReproduced repro) ++
            (g.filter (grownOtherOfType t sp.instanceId)).filter
              (fun p => !(notReproduced repro p)) with
        | [] => none
        | partner :: _ =>
          match partner.plant with
          | none => none
          | some pp => some (mkBeeEvent fresh g t repro source partner sp pp)

/-- The deferred bee-pollination commit (src/index.tsx lines 1177-1189):
write the offspring at the captured spot only if that plot is still empty in
the latest garden. -/
def commitIfEmpty (g : Garden) (i : Nat) (pl : PlantState) : Garden :=
  match g.get? i with
  | some plot => if plot.plant = none then g.set i { plot with plant := some pl } else g
  | none => g

/-- Instance id of the concrete apple parent. -/
def idP : String := "p1"

/-- Instance id of the concrete apple child. -/
def idC : String := "c1"

/-- A grown apple tree with no recorded parents. -/
def appleParent : PlantState :=
  { instanceId := idP
    type := PlantType.maca
    stage := PlantStage.grown
    phenotype := phenotype PlantType.maca
    parentIds := []
    isSmall := false
    isHybrid := false
    isBoosted := false }

/-- A grown apple tree whose recorded parent is `appleParent`. -/
def appleChild : PlantState :=
  { instanceId := idC
    type := PlantType.maca
    stage := PlantStage.grown
    phenotype := phenotype PlantType.maca
    parentIds := [idP]
    isSmall := false
    isHybrid := false
    isBoosted := false }

/-- Plot 0 holding the apple parent. -/
def applePlot0 : PlotState :=
  { id := 0, plant := some appleParent, isWatered := false, fertilizer := none }

/-- Plot 1 holding the apple child. -/
def applePlot1 : PlotState :=
  { id := 1, plant := some appleChild, isWatered := false, fertilizer := none }

/-- A garden with the apple parent at plot 0, its child at plot 1, and all
other plots empty — the specification's Apple self-incompatibility scenario. -/
def appleGarden : Garden :=
  applePlot0 :: applePlot1 :: (List.range 14).map (fun i => emptyPlot (i + 2))

/-- Claim C2 counterexample: with bees visible, pairing the apple parent at
plot 0 with its direct child at plot 1 is NOT rejected — the run produces an
offspring (committed at the still-empty plot 4) and the inbreeding-depression
notification, not an invalid-pollination notification. -/
theorem applePairing_counterexample :
    (tryPollinationModel freshF appleGarden PlantType.maca BeeState.visible []).map
        (fun ev => (ev.offspring.isSome, ev.notificationTitle, ev.spotId)) =
      some (true, some tituloEndogamia, some 4) ∧
      ((commitIfEmpty appleGarden 4
            (createPlant freshF PlantType.maca [idP, idC] true false)).get? 4).map
          (fun p => p.plant.isSome) = some true := by
  refine ⟨rfl, rfl⟩

/-- Auxiliary: the reproduced set contains the id just added. -/
theorem addRepro_contains_self (id : String) (r : List String) :
    (addRepro id r).contains id = true := by
  unfold addRepro
  by_cases h : r.contains id = true
  · rw [if_pos h]
    exact h
  · rw [if_neg h]
    simp [List.contains_cons]

/-- Auxiliary: adding an id to the reproduced set preserves membership. -/
theorem addRepro_contains_mono (x y : String) (r : List String)
    (h : r.contains x = true) : (addRepro y r).contains x = true := by
  unfold addRepro
  by_cases hy : r.contains y = true
  · rw [if_pos hy]
    exact h
  · rw [if_neg hy]
    have hx : x ∈ r := by simpa using h
    simp [List.contains_cons, hx]

/-- Auxiliary: inverting a successful `tryPollinationModel` run — the event is
`mkBeeEvent` applied to its own recorded plots and plants. -/
theorem tryPollinationModel_shape (fresh : String) (g : Garden) (t : PlantType)
    (bee : BeeState) (repro : List String) (ev : BeePollinationEvent)
    (h : tryPollinationModel fresh g t bee repro = some ev) :
    ∃ source partner sp pp,
      ev = mkBeeEvent fresh g t repro source partner sp pp := by
  unfold tryPollinationModel at h
  split at h
  · exact absurd h (by simp)
  · split at h
    · exact absurd h (by simp)
    · split at h
      · exact absurd h (by simp)
      · split at h
        · exact absurd h (by simp)
        · split at h
          · exact absurd h (by simp)
          · injection h with h2
            exact ⟨_, _, _, _, h2.symm⟩

/-- Claim C2 (amended): a bee-mediated Apple pairing where one plant is a
direct parent of the other is not rejected: the pairing proceeds like any
other — both participants are marked reproduced, the genetics resolve to
inbreeding (when the parents are not both small), an offspring is created at
the captured spot, and the inbreeding-depression notification is selected;
no invalid-pollination notification exists in the bee path. -/
theorem applePairing_processed_as_inbreeding (fresh : String) (g : Garden)
    (repro : List String) (ev : BeePollinationEvent)
    (h : tryPollinationModel fresh g PlantType.maca BeeState.visible repro = some ev)
    (hpar : ev.partnerPlant.parentIds.contains ev.sourcePlant.instanceId = true ∨
      ev.sourcePlant.parentIds.contains ev.partnerPlant.instanceId = true)
    (hsm : ¬(ev.sourcePlant.isSmall = true ∧ ev.partnerPlant.isSmall = true))
    (hspot : ev.spotId.isSome = true) :
    ev.genetics = (true, false) ∧
      ev.offspring.isSome = true ∧
      ev.notificationTitle = some tituloEndogamia ∧
      ev.reproAfter.contains ev.sourcePlant.instanceId = true ∧
      ev.reproAfter.contains ev.partnerPlant.instanceId = true := by
  obtain ⟨source, partner, sp, pp, rfl⟩ :=
    tryPollinationModel_shape fresh g PlantType.maca BeeState.visible repro ev h
  simp only [mkBeeEvent] at hpar hsm hspot ⊢
  have hcond : (sp.isSmall && pp.isSmall) = false := by
    cases hA : sp.isSmall <;> cases hB : pp.isSmall <;> simp_all
  have hcond2 : ¬((sp.isSmall && pp.isSmall) = true) := by
    rw [hcond]
    exact Bool.false_ne_true
  have hor : (pp.parentIds.contains sp.instanceId ||
      sp.parentIds.contains pp.instanceId || sp.instanceId == pp.instanceId) = true := by
    rcases hpar with hp | hp
    · simp only [hp, Bool.true_or]
    · simp only [hp, Bool.true_or, Bool.or_true]
  have hgen : determineOffspringGenetics sp pp = (true, false) := by
    unfold determineOffspringGenetics
    rw [if_neg hcond2, hor]
  obtain ⟨s, hs⟩ := Option.isSome_iff_exists.mp hspot
  refine ⟨hgen, ?_, ?_, ?_, ?_⟩
  · rw [hs]
    rfl
  · rw [hs, hgen]
    rfl
  · exact addRepro_contains_mono _ _ _ (addRepro_contains_self _ _)
  · exact addRepro_contains_self _ _

/-- Claim C2 witness: the amended theorem applied to the concrete parent-child
apple garden with bees visible. -/
theorem applePairing_processed_as_inbreeding_witness :
    (mkBeeEvent freshF appleGarden PlantType.maca [] applePlot0 applePlot1
          appleParent appleChild).genetics = (true, false) ∧
      (mkBeeEvent freshF appleGarden PlantType.maca [] applePlot0 applePlot1
          appleParent appleChild).offspring.isSome = true ∧
      (mkBeeEvent freshF appleGarden PlantType.maca [] applePlot0 applePlot1
          appleParent appleChild).notificationTitle = some tituloEndogamia ∧
      (mkBeeEvent freshF appleGarden PlantType.maca [] applePlot0 applePlot1
            appleParent appleChild).reproAfter.contains
          (mkBeeEvent freshF appleGarden PlantType.maca [] applePlot0 applePlot1
            appleParent appleChild).sourcePlant.instanceId = true ∧
      (mkBeeEvent freshF appleGarden PlantType.maca [] applePlot0 applePlot1
            appleParent appleChild).reproAfter.contains
          (mkBeeEvent freshF appleGarden PlantType.maca [] applePlot0 applePlot1
            appleParent appleChild).partnerPlant.instanceId = true :=
  applePairing_processed_as_inbreeding freshF appleGarden [] _ rfl
    (Or.inl (by decide)) (by decide) (by decide)

/-- Instance id of the first concrete corn. -/
def idM1 : String := "m1"

/-- Instance id of the second concrete corn. -/
def idM2 : String := "m2"

/-- A grown corn plant with no recorded parents. -/
def cornA : PlantState :=
  { instanceId := idM1
    type := PlantType.milho
    stage := PlantStage.grown
    phenotype := phenotype PlantType.milho
    parentIds := []
    isSmall := false
    isHybrid := false
    isBoosted := false }

/-- A second grown corn plant, unrelated to the first. -/
def cornB : PlantState :=
  { instanceId := idM2
    type := PlantType.milho
    stage := PlantStage.grown
    phenotype := phenotype PlantType.milho
    parentIds := []
    isSmall := false
    isHybrid := false
    isBoosted := false }

/-- Instance id of the pumpkin planted during the wind delay. -/
def idPk : String := "pk1"

/-- The pumpkin sprout a user plants at plot 4 during the 4s wind delay. -/
def intruderPumpkin : PlantState :=
  { instanceId := idPk
    type := PlantType.abobora
    stage := PlantStage.sprout
    phenotype := phenotype PlantType.abobora
    parentIds := []
    isSmall := false
    isHybrid := false
    isBoosted := false }

/-- The garden snapshot captured by the corn effect: corn at plots 0 and 1,
everything else empty. -/
def snapCornGarden : Garden :=
  { id := 0, plant := some cornA, isWatered := false, fertilizer := none } ::
    { id := 1, plant := some cornB, isWatered := false, fertilizer := none } ::
    (List.range 14).map (fun i => emptyPlot (i + 2))

/-- The latest garden at commit time: same as the snapshot except plot 4 now
holds the pumpkin planted during the delay. -/
def latestCornGarden : Garden :=
  { id := 0, plant := some cornA, isWatered := false, fertilizer := none } ::
    { id := 1, plant := some cornB, isWatered := false, fertilizer := none } ::
    emptyPlot 2 :: emptyPlot 3 ::
    { id := 4, plant := some intruderPumpkin, isWatered := false, fertilizer := none } ::
    (List.range 11).map (fun i => emptyPlot (i + 5))

/-- The deferred corn-reproduction commit of the `src/unnamed/part_001`
variant (its Milho branch, lines 828-854): the empty spot is computed from the
garden snapshot captured by the effect, and 4 seconds later the offspring is
written into the latest garden at that spot WITHOUT re-checking that the spot
is still empty. -/
def milhoWindCommitPart001 (fresh : String) (snapshot latest : Garden)
    (grownId : Nat) (parentA partnerB : PlantState) : Garden :=
  match findEmptySpot grownId snapshot with
  | some spot =>
    let gen := determineOffspringGenetics parentA partnerB
    setPlantAt latest spot
      (createPlant fresh PlantType.milho [parentA.instanceId, partnerB.instanceId]
        gen.1 gen.2)
  | none => latest

/-- Claim C3: at the failing input, the part_001 corn commit overwrites plot 4
— which the snapshot saw empty but which holds a pumpkin at commit time — with
the corn offspring, while the guarded bee-path commit (`commitIfEmpty`) leaves
the occupied plot untouched.  This exhibits a reproduction pathway that does
not re-validate emptiness before writing. -/
theorem part001_corn_commit_overwrites :
    findEmptySpot 0 snapCornGarden = some 4 ∧
      ((latestCornGarden.get? 4).map (fun p => p.plant.map (fun q => q.type))) =
        some (some PlantType.abobora) ∧
      (((milhoWindCommitPart001 freshF snapCornGarden latestCornGarden 0 cornA
              cornB).get? 4).map (fun p => p.plant.map (fun q => q.type))) =
        some (some PlantType.milho) ∧
      ((commitIfEmpty latestCornGarden 4
            (createPlant freshF PlantType.milho [idM1, idM2] false false)).get? 4).map
          (fun p => p.plant.map (fun q => q.type)) = some (some PlantType.abobora) := by
  refine ⟨rfl, rfl, rfl, rfl⟩

/-- The eight compass deltas of the claim, in row-major order
NW, N, NE, W, E, SW, S, SE (the center excluded). -/
def compassDeltas : List (Int × Int) :=
  [(-1, -1), (-1, 0), (-1, 1), (0, -1), (0, 1), (1, -1), (1, 0), (1, 1)]

/-- The in-bounds neighbor plot ids of a center, in the claim's scan order. -/
def specNeighborIds (centerId : Nat) : List Nat :=
  compassDeltas.filterMap (neighborCell centerId)

/-- The claim's description of the nearest-empty policy: the first empty
neighbor in fixed order, else the first empty plot of the whole grid in
ascending id order, else `none`. -/
def specFindNearestEmpty (centerId : Nat) (g : Garden) : Option Nat :=
  match (specNeighborIds centerId).find? (fun i => isEmptyAt g i) with
  | some i => some i
  | none => (List.range 16).find? (fun i => isEmptyAt g i)

/-- A well-formed garden: sixteen plots, the plot stored at index `i`
carrying id `i` (the invariant the source maintains from initialisation). -/
def wfGarden (g : Garden) : Prop :=
  g.length = 16 ∧ ∀ i, i < 16 → (g.get? i).map (fun p => p.id) = some i

/-- Auxiliary: `find?` only depends on the predicate's values on the list. -/
theorem find?_congrH {α : Type} (p q : α → Bool) :
    ∀ l : List α, (∀ a ∈ l, p a = q a) → l.find? p = l.find? q := by
  intro l
  induction l with
  | nil => intro _; rfl
  | cons a t ih =>
    intro hall
    have ha := hall a (List.mem_cons_self a t)
    simp only [List.find?]
    rw [ha]
    cases hq : q a with
    | true => rfl
    | false => exact ih (fun b hb => hall b (List.mem_cons_of_mem a hb))

/-- Auxiliary: the neighbor scan loop is `find?` over the candidate ids
produced by the delta list (center skipped, bounds filtered). -/
theorem scanLoop_eq (c : Nat) (g : Garden) :
    ∀ l, scanLoop c g l =
      (l.filterMap (fun d =>
        if d = ((0 : Int), (0 : Int)) then none else neighborCell c d)).find?
        (fun i => isEmptyAt g i) := by
  intro l
  induction l with
  | nil => rfl
  | cons d rest ih =>
    by_cases hd : d = ((0 : Int), (0 : Int))
    · simp only [scanLoop, List.filterMap_cons, if_pos hd]
      exact ih
    · simp only [scanLoop, List.filterMap_cons, if_neg hd]
      cases hnc : neighborCell c d with
      | none => exact ih
      | some nid =>
        cases he : isEmptyAt g nid with
        | true => simp [List.find?, he]
        | false => simp [List.find?, he, ih]

/-- Auxiliary: filtering the full 9-delta loop list with the center skip
yields exactly the claim's 8-neighbor candidate list. -/
theorem allDeltas_filterMap (c : Nat) :
    allDeltas.filterMap (fun d =>
        if d = ((0 : Int), (0 : Int)) then none else neighborCell c d)
      = specNeighborIds c := by
  have hfront : ([(-1, -1), (-1, 0), (-1, 1), (0, -1)] : List (Int × Int)).filterMap
      (fun d => if d = ((0 : Int), (0 : Int)) then none else neighborCell c d)
      = ([(-1, -1), (-1, 0), (-1, 1), (0, -1)] : List (Int × Int)).filterMap
        (neighborCell c) := by
    apply List.filterMap_congr
    intro a ha
    have hne : ¬ a = ((0 : Int), (0 : Int)) := by
      fin_cases ha <;> decide
    exact if_neg hne
  show (([(-1, -1), (-1, 0), (-1, 1), (0, -1)] : List (Int × Int)) ++
      ((0, 0) :: [(0, 1), (1, -1), (1, 0), (1, 1)])).filterMap
        (fun d => if d = ((0 : Int), (0 : Int)) then none else neighborCell c d)
    = (([(-1, -1), (-1, 0), (-1, 1), (0, -1)] : List (Int × Int)) ++
        [(0, 1), (1, -1), (1, 0), (1, 1)]).filterMap (neighborCell c)
  rw [List.filterMap_append, List.filterMap_append, hfront]
  congr 1

/-- Auxiliary: the loop over `allDeltas` equals `find?` over the claim's
neighbor id list. -/
theorem scan_allDeltas (c : Nat) (g : Garden) :
    scanLoop c g allDeltas = (specNeighborIds c).find? (fun i => isEmptyAt g i) := by
  rw [scanLoop_eq, allDeltas_filterMap]

/-- Auxiliary: whole-list `find?` on the garden, projected to ids, equals an
index scan when the stored ids follow the positions (shifted by `k`). -/
theorem find?_id_range (q : PlotState → Bool) :
    ∀ (g : Garden) (k : Nat),
      (∀ i, i < g.length → (g.get? i).map (fun p => p.id) = some (k + i)) →
      ((g.find? q).map (fun p => p.id))
        = (List.range' k g.length).find?
            (fun j => ((g.get? (j - k)).map q).getD false) := by
  intro g
  induction g with
  | nil => intro k _; rfl
  | cons a t ih =>
    intro k hids
    have ha : a.id = k := by
      have h0 := hids 0 (by simp)
      simpa using h0
    rw [show ((a :: t : Garden).length) = t.length + 1 from rfl, List.range'_succ]
    have hk : ((((a :: t : Garden).get? (k - k)).map q).getD false) = q a := by
      simp [Nat.sub_self]
    by_cases hq : q a = true
    · rw [List.find?_cons_of_pos _ hq]
      simp only [List.find?, hk, hq]
      simp [ha]
    · have hq2 : q a = false := by
        cases hb : q a with
        | true => exact absurd hb hq
        | false => rfl
      rw [List.find?_cons_of_neg _ hq]
      simp only [List.find?, hk, hq2]
      have hcong : ∀ j ∈ List.range' (k + 1) t.length,
          ((((a :: t : Garden).get? (j - k)).map q).getD false)
            = (((t.get? (j - (k + 1))).map q).getD false) := by
        intro j hj
        have hj1 : k + 1 ≤ j := (List.mem_range'_1.mp hj).1
        have hsub : j - k = (j - (k + 1)) + 1 := by omega
        rw [hsub]
        rfl
      rw [find?_congrH _ _ _ hcong]
      have hids2 : ∀ i, i < t.length →
          (t.get? i).map (fun p => p.id) = some ((k + 1) + i) := by
        intro i hi
        have h1 := hids (i + 1) (by simpa using Nat.succ_lt_succ hi)
        have h2 : k + (i + 1) = (k + 1) + i := by omega
        rw [h2] at h1
        exact h1
      exact ih (k + 1) hids2

/-- Auxiliary: under well-formedness, the source's whole-garden fallback scan
equals the claim's ascending-id scan of the grid. -/
theorem fallback_eq (g : Garden) (hwf : wfGarden g) :
    (g.find? (fun p => p.plant.isNone)).map (fun p => p.id)
      = (List.range 16).find? (fun i => isEmptyAt g i) := by
  obtain ⟨hlen, hids⟩ := hwf
  have h0 : ∀ i, i < g.length → (g.get? i).map (fun p => p.id) = some (0 + i) := by
    intro i hi
    rw [hlen] at hi
    simpa [Nat.zero_add] using hids i hi
  rw [find?_id_range (fun p => p.plant.isNone) g 0 h0, hlen,
    ← List.range_eq_range']
  apply find?_congrH
  intro j _
  simp only [Nat.sub_zero, isEmptyAt]
  cases hg : g.get? j with
  | some p => rfl
  | none => rfl

/-- Claim C6: `findEmptySpot` scans the up-to-8 in-bounds neighbors of the
center in row-major order NW,N,NE,W,E,SW,S,SE (center skipped) and returns the
first empty one; otherwise it returns the first empty plot of the grid in
ascending id order; and it returns `none` exactly when no plot is empty. -/
theorem findEmptySpot_policy (centerId : Nat) (g : Garden) (hwf : wfGarden g) :
    findEmptySpot centerId g = specFindNearestEmpty centerId g ∧
      (findEmptySpot centerId g = none ↔ ∀ p ∈ g, p.plant ≠ none) := by
  have hscan := scan_allDeltas centerId g
  have hfall := fallback_eq g hwf
  constructor
  · unfold findEmptySpot specFindNearestEmpty
    rw [hscan]
    cases h : (specNeighborIds centerId).find? (fun i => isEmptyAt g i) with
    | some i => rfl
    | none => simpa using hfall
  · constructor
    · intro h
      unfold findEmptySpot at h
      rw [hscan] at h
      cases hn : (specNeighborIds centerId).find? (fun i => isEmptyAt g i) with
      | some i =>
        rw [hn] at h
        simp at h
      | none =>
        rw [hn] at h
        have hfind : g.find? (fun p => p.plant.isNone) = none := by
          cases hf : g.find? (fun p => p.plant.isNone) with
          | some p =>
            rw [hf] at h
            simp at h
          | none => rfl
        intro p hp hpn
        have hnp := List.find?_eq_none.mp hfind p hp
        apply hnp
        simp [hpn]
    · intro hall
      unfold findEmptySpot
      rw [hscan]
      have hfind : g.find? (fun p => p.plant.isNone) = none := by
        apply List.find?_eq_none.mpr
        intro p hp hpn
        exact hall p hp (Option.isNone_iff_eq_none.mp hpn)
      have hn : (specNeighborIds centerId).find? (fun i => isEmptyAt g i) = none := by
        apply List.find?_eq_none.mpr
        intro i _ hempty
        unfold isEmptyAt at hempty
        cases hg : g.get? i with
        | none =>
          rw [hg] at hempty
          simp at hempty
        | some p =>
          rw [hg] at hempty
          have hm : p ∈ g := List.get?_mem hg
          exact hall p hm (Option.isNone_iff_eq_none.mp hempty)
      rw [hn, hfind]
      rfl

/-- Claim C6 witness: the policy theorem applied at center 0 of the all-empty
sixteen-plot garden. -/
theorem findEmptySpot_policy_witness :
    findEmptySpot 0 emptyGarden16 = specFindNearestEmpty 0 emptyGarden16 ∧
      (findEmptySpot 0 emptyGarden16 = none ↔
        ∀ p ∈ emptyGarden16, p.plant ≠ none) :=
  findEmptySpot_policy 0 emptyGarden16 ⟨rfl, by decide⟩

/-- Title of the bean harvest-tip notification (src/index.tsx line 1517). -/
def tituloDicaColheita : String := "Dica de Colheita (Feijão) 🌱"

/-- Title of the green-manure fertilization notification (line 1521). -/
def tituloAdubacaoVerde : String := "Adubação Verde! 🌱✨"

/-- The plot ids captured at bean-harvest click time: every other plot that
currently holds a plant (src/index.tsx line 1503). -/
def beanHarvestCapture (g : Garden) (plotId : Nat) : List Nat :=
  (g.filter (fun p => decide (p.id ≠ plotId) && p.plant.isSome)).map (fun p => p.id)

/-- The deferred green-manure commit (src/index.tsx lines 1508-1514): captured
plots get organic fertilizer, the harvested plot is reset, everything else is
untouched. -/
def beanHarvestCommit (captured : List Nat) (plotId : Nat) (g : Garden) : Garden :=
  g.map (fun p =>
    if captured.contains p.id then { p with fertilizer := some Fertilizer.organic }
    else if p.id = plotId then clearPlot p
    else p)

/-- The two notifications the commit then emits, prepended newest-first
(src/index.tsx lines 1516-1523). -/
def notifyBeanHarvest (old : List String) : List String :=
  tituloAdubacaoVerde :: tituloDicaColheita :: old

/-- Claim C8: after the green-manure commit, every plot other than the
harvested one that held a plant at capture time carries the organic
(green-manure) fertilizer flag, the harvested plot is cleared, every plot that
was empty at capture time is untouched, and both the harvest-tip and
fertilization notifications are emitted. -/
theorem beanHarvest_green_manure (g : Garden) (plotId i : Nat)
    (hwf : wfGarden g) (hi : i < 16) :
    ((beanHarvestCommit (beanHarvestCapture g plotId) plotId g).get? i)
      = (g.get? i).map (fun p =>
          if p.id ≠ plotId ∧ p.plant.isSome = true then
            { p with fertilizer := some Fertilizer.organic }
          else if p.id = plotId then clearPlot p
          else p) ∧
      (∀ old : List String, notifyBeanHarvest old
        = tituloAdubacaoVerde :: tituloDicaColheita :: old) := by
  obtain ⟨hlen, hids⟩ := hwf
  refine ⟨?_, fun old => rfl⟩
  unfold beanHarvestCommit
  rw [List.get?_map]
  cases hg : g.get? i with
  | none => rfl
  | some p =>
    have hpid : p.id = i := by
      have h1 := hids i hi
      rw [hg] at h1
      simpa using h1
    simp only [Option.map_some']
    congr 1
    by_cases hcase : p.id ≠ plotId ∧ p.plant.isSome = true
    · have hmem : p.id ∈ beanHarvestCapture g plotId := by
        unfold beanHarvestCapture
        apply List.mem_map.mpr
        refine ⟨p, ?_, rfl⟩
        apply List.mem_filter.mpr
        refine ⟨List.get?_mem hg, ?_⟩
        simp [hcase.1, hcase.2]
      have hcon : (beanHarvestCapture g plotId).contains p.id = true := by
        simpa using hmem
      rw [if_pos hcon, if_pos hcase]
    · have hnotmem : p.id ∉ beanHarvestCapture g plotId := by
        intro hmem
        unfold beanHarvestCapture at hmem
        obtain ⟨q, hq, hqid⟩ := List.mem_map.mp hmem
        obtain ⟨hqg, hqpred⟩ := List.mem_filter.mp hq
        obtain ⟨n, hn⟩ := List.get?_of_mem hqg
        have hnlen : n < g.length := by
          by_contra hge
          rw [List.get?_eq_none.mpr (Nat.le_of_not_lt hge)] at hn
          exact Option.noConfusion hn
        have h16 : n < 16 := by
          rw [hlen] at hnlen
          exact hnlen
        have hidn := hids n h16
        rw [hn] at hidn
        have hqn : q.id = n := by simpa using hidn
        have hni : n = i := by rw [← hqn, hqid, hpid]
        rw [hni, hg] at hn
        have hqp : q = p := by
          injection hn with h
          exact h.symm
        rw [hqp] at hqpred
        simp only [Bool.and_eq_true, decide_eq_true_eq] at hqpred
        exact hcase ⟨hqpred.1, hqpred.2⟩
      have hconP : ¬((beanHarvestCapture g plotId).contains p.id = true) := by
        intro hc
        exact hnotmem (by simpa using hc)
      rw [if_neg hconP, if_neg hcase]

/-- Instance id of the concrete bean used in the witness. -/
def idBn : String := "bn1"

/-- A grown bean plant. -/
def beanPlant : PlantState :=
  { instanceId := idBn
    type := PlantType.feijao
    stage := PlantStage.grown
    phenotype := phenotype PlantType.feijao
    parentIds := []
    isSmall := false
    isHybrid := false
    isBoosted := false }

/-- A garden with a pumpkin at plot 0, the bean at plot 2, and everything else
empty. -/
def beanGarden : Garden :=
  { id := 0, plant := some pumpkinA, isWatered := false, fertilizer := none } ::
    emptyPlot 1 ::
    { id := 2, plant := some beanPlant, isWatered := false, fertilizer := none } ::
    (List.range 13).map (fun i => emptyPlot (i + 3))

/-- Claim C8 witness: the commit theorem applied to the concrete bean garden,
harvesting the bean at plot 2 and inspecting plot 0. -/
theorem beanHarvest_green_manure_witness :
    ((beanHarvestCommit (beanHarvestCapture beanGarden 2) 2 beanGarden).get? 0)
      = (beanGarden.get? 0).map (fun p =>
          if p.id ≠ 2 ∧ p.plant.isSome = true then
            { p with fertilizer := some Fertilizer.organic }
          else if p.id = 2 then clearPlot p
          else p) ∧
      (∀ old : List String, notifyBeanHarvest old
        = tituloAdubacaoVerde :: tituloDicaColheita :: old) :=
  beanHarvest_green_manure beanGarden 2 0 ⟨rfl, by decide⟩ (by decide)

end Hortinha
